import Mathlib

/-!
Shallow embedding of the EcoTrackAI user-archetype classification and
recommendation subsystem, over exact rationals (ℚ stands for the Python
floats; exact arithmetic is the intended semantics of the documented
formulas).  Sources embedded:
  * ml_services/generate_synthetic_data.py (emission derivation)
  * ml_services/train_kmeans.py            (feature list, cluster analysis)
  * backend/services/kmeans_service.py     (classifier, rule engine)
  * backend/services/gemini_service.py     (text enhancement fallback)
  * backend/routers/recommendations.py     (request pipeline)
-/

namespace EcoTrack

/-- Python `needle in hay` on lists of characters: `leadsWith n h` is true
when `n` is an initial segment of `h`. -/
def leadsWith : List Char → List Char → Bool
  | [], _ => true
  | _ :: _, [] => false
  | a :: as, b :: bs => a == b && leadsWith as bs

/-- Scan of the haystack for an occurrence of the needle. -/
def containsSubL (needle : List Char) : List Char → Bool
  | [] => leadsWith needle []
  | b :: bs => leadsWith needle (b :: bs) || containsSubL needle bs

/-- Python substring containment `needle in hay` for strings. -/
def containsSub (hay needle : String) : Bool :=
  containsSubL needle.data hay.data

/-- Arithmetic mean of a list of rationals (pandas `.mean()`); the empty
list is never fed to it under the claims' hypotheses. -/
def mean (xs : List ℚ) : ℚ := xs.sum / (xs.length : ℚ)

/-! ## generate_synthetic_data.py -/

/-- One synthetic user row: the raw behavioral fields plus the derived
per-category and total emission fields (generate_synthetic_data.py). -/
structure UserRow where
  daily_miles_driven : ℚ
  meat_meals_per_week : ℚ
  vegetarian_meals_per_week : ℚ
  electricity_kwh_per_day : ℚ
  natural_gas_therms_per_month : ℚ
  flights_per_year : ℚ
  total_annual_emissions_kg : ℚ
  transport_emissions_kg : ℚ
  food_emissions_kg : ℚ
  energy_emissions_kg : ℚ
  flight_emissions_kg : ℚ
deriving DecidableEq

/-- The raw behavioral draws of a synthetic user, before emission
derivation (the random sampling itself is outside the embedding; the
deterministic derivation below is lines 62-90 of
generate_synthetic_data.py, without the 2-decimal display rounding). -/
structure Behavior where
  daily_miles : ℚ
  meat_meals : ℚ
  veg_meals : ℚ
  electricity_kwh : ℚ
  gas_therms : ℚ
  flights : ℚ
deriving DecidableEq

/-- Emission derivation of generate_synthetic_data.py lines 62-90:
fixed linear emission factors, summed to a total. -/
def emissionsOf (b : Behavior) : UserRow :=
  let transport_emissions := b.daily_miles * 365 * (411/1000)
  let food_emissions := (b.meat_meals * (35/10) + b.veg_meals * (5/10)) * 52
  let energy_emissions := b.electricity_kwh * (5/10) * 365 + b.gas_therms * (53/10) * 12
  let flight_emissions := b.flights * 900
  { daily_miles_driven := b.daily_miles
    meat_meals_per_week := b.meat_meals
    vegetarian_meals_per_week := b.veg_meals
    electricity_kwh_per_day := b.electricity_kwh
    natural_gas_therms_per_month := b.gas_therms
    flights_per_year := b.flights
    total_annual_emissions_kg :=
      transport_emissions + food_emissions + energy_emissions + flight_emissions
    transport_emissions_kg := transport_emissions
    food_emissions_kg := food_emissions
    energy_emissions_kg := energy_emissions
    flight_emissions_kg := flight_emissions }

/-! ## train_kmeans.py -/

/-- Feature column list of `prepare_features` (train_kmeans.py lines 27-36). -/
def feature_cols_train : List String :=
  [ "daily_miles_driven"
  , "meat_meals_per_week"
  , "electricity_kwh_per_day"
  , "natural_gas_therms_per_month"
  , "flights_per_year"
  , "transport_emissions_kg"
  , "food_emissions_kg"
  , "energy_emissions_kg" ]

/-- One step of Python `max(..., key=...)`: the running best is replaced
only on a strictly greater key, so the first maximal element wins. -/
def pyMaxPair (best p : String × ℚ) : String × ℚ :=
  if p.2 > best.2 then p else best

/-- `max(ratios, key=ratios.get)` over the insertion-ordered dict
{transport, food, energy, flight} (train_kmeans.py lines 80-86). -/
def dominantOf (t f e fl : ℚ) : String :=
  ([("food", f), ("energy", e), ("flight", fl)].foldl pyMaxPair ("transport", t)).1

/-- The per-cluster numbers `analyze_clusters` computes before labelling
(train_kmeans.py lines 74-92). -/
structure ClusterNums where
  avg_total : ℚ
  avg_electricity : ℚ
  avg_meat : ℚ
  transport_ratio : ℚ
  food_ratio : ℚ
  energy_ratio : ℚ
  flight_ratio : ℚ
deriving DecidableEq

/-- Ratio-of-means cluster statistics of `analyze_clusters`
(train_kmeans.py lines 65-92) over the cluster's member rows. -/
def clusterNumsOf (rows : List UserRow) : ClusterNums :=
  { avg_total := mean (rows.map (·.total_annual_emissions_kg))
    avg_electricity := mean (rows.map (·.electricity_kwh_per_day))
    avg_meat := mean (rows.map (·.meat_meals_per_week))
    transport_ratio :=
      mean (rows.map (·.transport_emissions_kg)) / mean (rows.map (·.total_annual_emissions_kg))
    food_ratio :=
      mean (rows.map (·.food_emissions_kg)) / mean (rows.map (·.total_annual_emissions_kg))
    energy_ratio :=
      mean (rows.map (·.energy_emissions_kg)) / mean (rows.map (·.total_annual_emissions_kg))
    flight_ratio :=
      mean (rows.map (·.flight_emissions_kg)) / mean (rows.map (·.total_annual_emissions_kg)) }

/-- Archetype labelling cascade of `analyze_clusters`
(train_kmeans.py lines 94-120). -/
def archetypeOf (c : ClusterNums) : String :=
  let dominant := dominantOf c.transport_ratio c.food_ratio c.energy_ratio c.flight_ratio
  if c.avg_total < 6000 then "Low Total Emissions"
  else if dominant = "transport" ∧ c.transport_ratio > 30/100 ∧
      c.transport_ratio > c.energy_ratio * (11/10) then "High Transportation"
  else if dominant = "food" ∧ c.food_ratio > 20/100 then "High Food Emissions"
  else if dominant = "energy" then
    (if c.avg_electricity > 100 then "Very High Energy Usage"
     else if c.avg_meat > 8 then "High Energy & Food Usage"
     else if c.avg_total < 12000 then "Moderate Energy Usage"
     else "High Energy Usage")
  else if dominant = "flight" ∧ c.flight_ratio > 15/100 then "High Flight Emissions"
  else if max (max c.transport_ratio c.food_ratio) c.energy_ratio < 50/100 then
    "Balanced Emissions"
  else "High Energy Usage"

/-! Spec-side restatements, written from the specification's words, to be
compared with the source-side definitions above. -/

/-- Spec wording: the dominant source is the argmax over the four ratios
in the fixed enumeration order transport, food, energy, flight, ties
broken by that order (first source whose ratio is ≥ all later ones). -/
def dominantSpec (t f e fl : ℚ) : String :=
  if f ≤ t ∧ e ≤ t ∧ fl ≤ t then "transport"
  else if e ≤ f ∧ fl ≤ f then "food"
  else if fl ≤ e then "energy"
  else "flight"

/-- Spec wording of the archetype decision cascade, top-to-bottom, first
match wins (spec section 4.3 (d), items 1-6). -/
def archetypeSpecOf (c : ClusterNums) : String :=
  let dominant := dominantSpec c.transport_ratio c.food_ratio c.energy_ratio c.flight_ratio
  if c.avg_total < 6000 then "Low Total Emissions"
  else if dominant = "transport" ∧ c.transport_ratio > 30/100 ∧
      c.transport_ratio > (11/10) * c.energy_ratio then "High Transportation"
  else if dominant = "food" ∧ c.food_ratio > 20/100 then "High Food Emissions"
  else if dominant = "energy" then
    (if c.avg_electricity > 100 then "Very High Energy Usage"
     else if c.avg_meat > 8 then "High Energy & Food Usage"
     else if c.avg_total < 12000 then "Moderate Energy Usage"
     else "High Energy Usage")
  else if dominant = "flight" ∧ c.flight_ratio > 15/100 then "High Flight Emissions"
  else if max (max c.transport_ratio c.food_ratio) c.energy_ratio < 50/100 then
    "Balanced Emissions"
  else "High Energy Usage"

/-! ## backend/services/kmeans_service.py -/

/-- Feature column list of `classify_user_archetype`
(kmeans_service.py lines 60-69). -/
def feature_cols_service : List String :=
  [ "daily_miles_driven"
  , "meat_meals_per_week"
  , "electricity_kwh_per_day"
  , "natural_gas_therms_per_month"
  , "flights_per_year"
  , "transport_emissions_kg"
  , "food_emissions_kg"
  , "energy_emissions_kg" ]

/-- Python `dict.get(key, 0.0)` over an association-list model of the
feature dictionary. -/
def dictGet (d : List (String × ℚ)) (k : String) : ℚ :=
  (d.lookup k).getD 0

/-- One entry of `cluster_descriptions.json`: the archetype label plus
the stats map (the ratio fields are not needed at inference time). -/
structure ClusterInfo where
  archetype : String
  stats : List (String × ℚ)
deriving DecidableEq

/-- The loaded model artifact: scaler transform, nearest-centroid
predictor and the description map (kmeans_service.py `load_kmeans_model`
returns these three or `None` when an artifact file is missing; the
`Option` parameter below stands for that load result). -/
structure KModel where
  scale : List ℚ → List ℚ
  predict : List ℚ → Int
  descriptions : List (String × ClusterInfo)

structure ClassifyResult where
  cluster_id : Int
  archetype : String
  cluster_stats : List (String × ℚ)
deriving DecidableEq

/-- Feature-vector extraction of kmeans_service.py lines 71-74:
each column is read with `.get(col, 0.0)` — missing keys default to 0. -/
def featureVectorOf (user_emission_data : List (String × ℚ)) : List ℚ :=
  feature_cols_service.map (fun col => dictGet user_emission_data col)

/-- `classify_user_archetype` (kmeans_service.py lines 36-90);
`model = none` is the branch where `load_kmeans_model` returned `None`
because an artifact file was missing. -/
def classify_user_archetype (model : Option KModel)
    (user_emission_data : List (String × ℚ)) : Option ClassifyResult :=
  match model with
  | none => none
  | some m =>
    let feature_vector := featureVectorOf user_emission_data
    let feature_vector_scaled := m.scale feature_vector
    let cluster_id := m.predict feature_vector_scaled
    let cluster_info := m.descriptions.lookup (toString cluster_id)
    some { cluster_id := cluster_id
         , archetype := (cluster_info.map (·.archetype)).getD "Unknown"
         , cluster_stats := (cluster_info.map (·.stats)).getD [] }

/-- Recommendation record (backend/models/schemas.py `Recommendation`). -/
structure Recommendation where
  title : String
  description : String
  estimated_savings_kg : ℚ
  category : String
  priority : String
deriving DecidableEq

/-- Round half to even (Python float formatting tie rule), at integers. -/
def roundHalfEvenZ (q : ℚ) : ℤ :=
  let f := ⌊q⌋
  let r := q - (f : ℚ)
  if r < 1/2 then f
  else if r > 1/2 then f + 1
  else if f % 2 = 0 then f else f + 1

/-- Model of the Python format spec `:.1f` on a rational. -/
def fmt1 (q : ℚ) : String :=
  let t := roundHalfEvenZ (q * 10)
  if t < 0 then
    "-" ++ toString ((-t).toNat / 10) ++ "." ++ toString ((-t).toNat % 10)
  else
    toString (t.toNat / 10) ++ "." ++ toString (t.toNat % 10)

/-- Model of Python `str()` on the (float-valued) meal count interpolated
into the food recommendation text. -/
def pyStr (q : ℚ) : String :=
  if q.den = 1 then toString q.num ++ ".0" else toString q

/-- Transportation rule block (kmeans_service.py lines 103-114). -/
def transportBlock (d : List (String × ℚ)) (archetype : String) : List Recommendation :=
  if containsSub archetype "Transportation" ∨ dictGet d "transport_emissions_kg" > 2000 then
    let miles := dictGet d "daily_miles_driven"
    if miles > 30 then
      [{ title := "Reduce Daily Driving"
       , description := "Reduce driving by " ++ fmt1 (miles - 25) ++ " miles/week"
       , estimated_savings_kg := (miles - 25) * (411/1000) * 7
       , category := "transportation"
       , priority := "high" }]
    else []
  else []

/-- Food rule block (kmeans_service.py lines 116-127). -/
def foodBlock (d : List (String × ℚ)) (archetype : String) : List Recommendation :=
  if containsSub archetype "Food" ∨ dictGet d "food_emissions_kg" > 1500 then
    let meat_meals := dictGet d "meat_meals_per_week"
    if meat_meals > 7 then
      let savings := (meat_meals - 5) * (35/10)
      [{ title := "Reduce Meat Consumption"
       , description :=
           "Replace " ++ pyStr (meat_meals - 5) ++ " meat meals per week with vegetarian options"
       , estimated_savings_kg := savings * 52
       , category := "food"
       , priority := "high" }]
    else []
  else []

/-- Energy rule block (kmeans_service.py lines 129-140). -/
def energyBlock (d : List (String × ℚ)) (archetype : String) : List Recommendation :=
  if containsSub archetype "Energy" ∨ dictGet d "energy_emissions_kg" > 3000 then
    let electricity := dictGet d "electricity_kwh_per_day"
    if electricity > 30 then
      [{ title := "Reduce Energy Consumption"
       , description := "Reduce daily electricity usage by " ++ fmt1 (electricity - 25) ++ " kWh"
       , estimated_savings_kg := (electricity - 25) * (5/10) * 365
       , category := "energy"
       , priority := "medium" }]
    else []
  else []

/-- Low-emissions maintenance block (kmeans_service.py lines 142-150). -/
def lowBlock (archetype : String) : List Recommendation :=
  if containsSub archetype "Low" then
    [{ title := "Maintain Low Emissions"
     , description := "You\x27re doing great! Continue your sustainable habits."
     , estimated_savings_kg := 0
     , category := "general"
     , priority := "low" }]
  else []

/-- Fallback recommendation appended when no rule fired
(kmeans_service.py lines 152-160). -/
def track_rec : Recommendation :=
  { title := "Track Your Progress"
  , description := "Continue logging activities to get personalized recommendations"
  , estimated_savings_kg := 0
  , category := "general"
  , priority := "low" }

/-- `generate_rule_based_recommendations` (kmeans_service.py lines 92-162):
the four rule blocks append in order; if none fired, the fallback entry
is the whole result. -/
def generate_rule_based_recommendations (user_emission_data : List (String × ℚ))
    (archetype : String) : List Recommendation :=
  let recommendations :=
    transportBlock user_emission_data archetype ++
    foodBlock user_emission_data archetype ++
    energyBlock user_emission_data archetype ++
    lowBlock archetype
  if recommendations = [] then [track_rec] else recommendations

/-! ## backend/services/gemini_service.py -/

/-- `generate_recommendation_text` (gemini_service.py lines 110-139):
without an API key the input is returned unchanged; `llm = none` models
the external call raising, which is caught and also returns the input
unchanged; `llm = some f` is a successful call. -/
def generate_recommendation_text (apiKey : Option String)
    (llm : Option (String → String)) (rule_based_recommendation : String) : String :=
  match apiKey with
  | none => rule_based_recommendation
  | some _ =>
    match llm with
    | none => rule_based_recommendation
    | some f => f rule_based_recommendation

/-! ## backend/routers/recommendations.py -/

/-- An activity record as the recommendations router reads it; the
timestamp is modelled as a rational day count (`none` = record without a
date, which the router skips). -/
structure Activity where
  activity_category : String
  activity_subtype : String
  unit : String
  amount : ℚ
  co2e_kg : ℚ
  date : Option ℚ
deriving DecidableEq

/-- Trailing 30-day window filter (recommendations.py lines 52-72):
keep records whose date is at least `now - 30`. -/
def recentOf (now : ℚ) (acts : List Activity) : List Activity :=
  acts.filter (fun a =>
    match a.date with
    | some d => decide (d ≥ now - 30)
    | none => false)

/-- Mutable aggregation state of the router loop
(recommendations.py lines 75-84). -/
structure Agg where
  daily_miles : ℚ := 0
  meat_meals : ℚ := 0
  veg_meals : ℚ := 0
  electricity_kwh : ℚ := 0
  gas_therms : ℚ := 0
  flights : ℚ := 0
  transport_emissions : ℚ := 0
  food_emissions : ℚ := 0
  energy_emissions : ℚ := 0
deriving DecidableEq

/-- Body of the aggregation loop (recommendations.py lines 86-108). -/
def aggStep (s : Agg) (act : Activity) : Agg :=
  let category := act.activity_category
  let emissions := act.co2e_kg
  let unit := act.unit.toLower
  let subtype := act.activity_subtype.toLower
  let amount := act.amount
  if category = "transportation" then
    let s := { s with transport_emissions := s.transport_emissions + emissions }
    if unit = "miles" ∨ unit = "km" then
      { s with daily_miles := s.daily_miles + amount / 30 }
    else s
  else if category = "food" then
    let s := { s with food_emissions := s.food_emissions + emissions }
    if containsSub subtype "meat" ∨ containsSub subtype "beef" then
      { s with meat_meals := s.meat_meals + 1 }
    else
      { s with veg_meals := s.veg_meals + 1 }
  else if category = "energy" then
    let s := { s with energy_emissions := s.energy_emissions + emissions }
    if unit = "kwh" ∨ unit = "kilowatt-hour" then
      { s with electricity_kwh := s.electricity_kwh + amount / 30 }
    else if containsSub unit "therm" then
      { s with gas_therms := s.gas_therms + amount / 30 }
    else s
  else s

def aggregate (acts : List Activity) : Agg := acts.foldl aggStep {}

/-- The `user_emission_data` dictionary (recommendations.py lines 111-121). -/
def user_emission_data_of (s : Agg) : List (String × ℚ) :=
  [ ("daily_miles_driven", s.daily_miles)
  , ("meat_meals_per_week", s.meat_meals / 30 * 7)
  , ("vegetarian_meals_per_week", s.veg_meals / 30 * 7)
  , ("electricity_kwh_per_day", s.electricity_kwh)
  , ("natural_gas_therms_per_month", s.gas_therms * 30)
  , ("flights_per_year", s.flights * 12)
  , ("transport_emissions_kg", s.transport_emissions * 365 / 30)
  , ("food_emissions_kg", s.food_emissions * 365 / 30)
  , ("energy_emissions_kg", s.energy_emissions * 365 / 30) ]

/-- Live feature dictionary for a request: window filter, aggregation,
dictionary construction. -/
def emissionDataOf (now : ℚ) (acts : List Activity) : List (String × ℚ) :=
  user_emission_data_of (aggregate (recentOf now acts))

/-- The live feature vector the classifier extracts for a request. -/
def extractFV (now : ℚ) (acts : List Activity) : List ℚ :=
  featureVectorOf (emissionDataOf now acts)

/-- Archetype resolution of recommendations.py lines 124-129: the
classifier result's archetype, or "Unknown" when it returned `None`. -/
def archetypeOfRequest (model : Option KModel) (now : ℚ) (acts : List Activity) : String :=
  match classify_user_archetype model (emissionDataOf now acts) with
  | some r => r.archetype
  | none => "Unknown"

structure RecommendationsResponse where
  user_archetype : String
  recommendations : List Recommendation
  total_potential_savings_kg : ℚ
deriving DecidableEq

/-- Early-return recommendation for an empty activity log
(recommendations.py lines 38-49). -/
def start_logging_rec : Recommendation :=
  { title := "Start Logging Activities"
  , description := "Begin logging your daily activities to receive personalized recommendations."
  , estimated_savings_kg := 0
  , category := "general"
  , priority := "low" }

/-- `get_recommendations` (recommendations.py lines 31-155), with the
model-load result, the LLM availability and the current time passed
explicitly. -/
def get_recommendations (model : Option KModel) (apiKey : Option String)
    (llm : Option (String → String)) (now : ℚ)
    (all_activities : List Activity) : RecommendationsResponse :=
  if all_activities = [] then
    { user_archetype := "Unknown"
    , recommendations := [start_logging_rec]
    , total_potential_savings_kg := 0 }
  else
    let user_emission_data := emissionDataOf now all_activities
    let archetype := archetypeOfRequest model now all_activities
    let rule_recommendations := generate_rule_based_recommendations user_emission_data archetype
    let enhanced := rule_recommendations.map (fun r =>
      { r with description :=
          generate_recommendation_text apiKey llm (r.title ++ ": " ++ r.description) })
    { user_archetype := archetype
    , recommendations := enhanced
    , total_potential_savings_kg := (enhanced.map (·.estimated_savings_kg)).sum }

/-! ## Concrete instances used in witnesses and counterexamples -/

/-- Concrete synthetic user behavior. -/
def b0 : Behavior :=
  { daily_miles := 45, meat_meals := 5, veg_meals := 5
  , electricity_kwh := 30, gas_therms := 10, flights := 1 }

/-- An activity record without a date (the router skips it when building
the 30-day window). -/
def act_nodate : Activity :=
  { activity_category := "other", activity_subtype := "", unit := ""
  , amount := 0, co2e_kg := 0, date := none }

/-- The feature dictionary an all-zero aggregation produces. -/
def zero_data : List (String × ℚ) :=
  [ ("daily_miles_driven", 0), ("meat_meals_per_week", 0), ("vegetarian_meals_per_week", 0)
  , ("electricity_kwh_per_day", 0), ("natural_gas_therms_per_month", 0)
  , ("flights_per_year", 0), ("transport_emissions_kg", 0), ("food_emissions_kg", 0)
  , ("energy_emissions_kg", 0) ]

/-- A concrete loaded model: identity scaler, constant predictor,
one described cluster. -/
def test_model : KModel :=
  { scale := fun v => v
  , predict := fun _ => 0
  , descriptions := [("0", { archetype := "Test Cluster", stats := [] })] }

/-! ## Helper lemmas -/

theorem dominantOf_eq_dominantSpec (t f e fl : ℚ) :
    dominantOf t f e fl = dominantSpec t f e fl := by
  unfold dominantOf dominantSpec pyMaxPair
  simp only [List.foldl]
  split_ifs <;> simp_all <;> linarith

theorem aggStep_flights (s : Agg) (a : Activity) : (aggStep s a).flights = s.flights := by
  simp only [aggStep]
  split_ifs <;> rfl

theorem foldl_aggStep_flights (l : List Activity) (s : Agg) :
    (l.foldl aggStep s).flights = s.flights := by
  induction l generalizing s with
  | nil => rfl
  | cons a t ih => rw [List.foldl_cons, ih, aggStep_flights]

theorem rules_ne_nil (d : List (String × ℚ)) (archetype : String) :
    generate_rule_based_recommendations d archetype ≠ [] := by
  simp only [generate_rule_based_recommendations]
  split_ifs with h <;> simp_all

theorem sum_map_parts (rows : List UserRow) :
    (rows.map (fun u => u.transport_emissions_kg + u.food_emissions_kg +
        u.energy_emissions_kg + u.flight_emissions_kg)).sum =
      (rows.map (·.transport_emissions_kg)).sum + (rows.map (·.food_emissions_kg)).sum +
      (rows.map (·.energy_emissions_kg)).sum + (rows.map (·.flight_emissions_kg)).sum := by
  induction rows with
  | nil => simp
  | cons a t ih => simp only [List.map_cons, List.sum_cons, ih]; ring

theorem transportBlock_nonneg (d : List (String × ℚ)) (a : String) (r : Recommendation)
    (hr : r ∈ transportBlock d a) : 0 ≤ r.estimated_savings_kg := by
  simp only [transportBlock] at hr
  split_ifs at hr with h1 h2
  · simp only [List.mem_singleton] at hr
    subst hr
    have h25 : (0:ℚ) ≤ dictGet d "daily_miles_driven" - 25 := by linarith
    exact mul_nonneg (mul_nonneg h25 (by norm_num)) (by norm_num)
  · simp at hr
  · simp at hr

theorem foodBlock_nonneg (d : List (String × ℚ)) (a : String) (r : Recommendation)
    (hr : r ∈ foodBlock d a) : 0 ≤ r.estimated_savings_kg := by
  simp only [foodBlock] at hr
  split_ifs at hr with h1 h2
  · simp only [List.mem_singleton] at hr
    subst hr
    have h5 : (0:ℚ) ≤ dictGet d "meat_meals_per_week" - 5 := by linarith
    exact mul_nonneg (mul_nonneg h5 (by norm_num)) (by norm_num)
  · simp at hr
  · simp at hr

theorem energyBlock_nonneg (d : List (String × ℚ)) (a : String) (r : Recommendation)
    (hr : r ∈ energyBlock d a) : 0 ≤ r.estimated_savings_kg := by
  simp only [energyBlock] at hr
  split_ifs at hr with h1 h2
  · simp only [List.mem_singleton] at hr
    subst hr
    have h25 : (0:ℚ) ≤ dictGet d "electricity_kwh_per_day" - 25 := by linarith
    exact mul_nonneg (mul_nonneg h25 (by norm_num)) (by norm_num)
  · simp at hr
  · simp at hr

theorem lowBlock_nonneg (a : String) (r : Recommendation)
    (hr : r ∈ lowBlock a) : 0 ≤ r.estimated_savings_kg := by
  simp only [lowBlock] at hr
  split_ifs at hr with h1
  · simp only [List.mem_singleton] at hr
    subst hr
    norm_num
  · simp at hr

/-! ## Claim theorems -/

/-- C1: for every cluster, the archetype label assigned by
`analyze_clusters` is exactly the fixed top-to-bottom, first-match-wins
decision cascade stated in the specification, with the dominant source
the argmax over the four ratios in the order transport, food, energy,
flight, ties broken by that order. -/
theorem C1_archetype_cascade (c : ClusterNums) :
    archetypeOf c = archetypeSpecOf c := by
  have hm : (c.transport_ratio > c.energy_ratio * (11/10)) =
      (c.transport_ratio > (11/10) * c.energy_ratio) := by rw [mul_comm]
  simp only [archetypeOf, archetypeSpecOf, dominantOf_eq_dominantSpec, hm]

/-- C4: the training pipeline and the inference classifier build the
feature vector from exactly the same 8 feature names in exactly the same
order. -/
theorem C4_feature_columns_agree : feature_cols_train = feature_cols_service := rfl

/-- C9: for every activity history and reference time, the live feature
pipeline outputs `flights_per_year = 0`: the flight counter stays at its
initial value 0 through the whole aggregation, and 0 is what remains
after the ×12 scaling. -/
theorem C9_flights_always_zero (now : ℚ) (acts : List Activity) :
    (aggregate (recentOf now acts)).flights = 0 ∧
    dictGet (emissionDataOf now acts) "flights_per_year" = 0 := by
  have hz : (aggregate (recentOf now acts)).flights = 0 :=
    foldl_aggStep_flights (recentOf now acts) {}
  refine ⟨hz, ?_⟩
  unfold emissionDataOf user_emission_data_of dictGet
  simp [List.lookup, hz]

/-- C5: when the trained model artifact is unavailable (the load returned
nothing because an artifact file was missing), classification yields no
result, the caller substitutes archetype "Unknown", and the rule engine
still produces a non-empty recommendation list — for every activity
history, a response is produced. -/
theorem C5_model_unavailable_degrades (apiKey : Option String)
    (llm : Option (String → String)) (now : ℚ) (acts : List Activity) :
    classify_user_archetype none (emissionDataOf now acts) = none ∧
    (get_recommendations none apiKey llm now acts).user_archetype = "Unknown" ∧
    (get_recommendations none apiKey llm now acts).recommendations ≠ [] := by
  refine ⟨rfl, ?_, ?_⟩ <;> unfold get_recommendations <;> split_ifs with h
  · rfl
  · rfl
  · simp
  · have hne := rules_ne_nil (emissionDataOf now acts) (archetypeOfRequest none now acts)
    simp only [ne_eq, List.map_eq_nil_iff]
    exact hne

/-- C2: for every cluster with at least one member, a positive mean
total and members whose category emissions sum to at most their total
(as the synthetic generator constructs them), each stored ratio equals
the ratio of the category mean to the total mean, and the four ratios
sum to at most 1. -/
theorem C2_ratio_of_means (rows : List UserRow) (hne : rows ≠ [])
    (hpos : 0 < mean (rows.map (·.total_annual_emissions_kg)))
    (hwf : ∀ u ∈ rows, u.transport_emissions_kg + u.food_emissions_kg +
        u.energy_emissions_kg + u.flight_emissions_kg ≤ u.total_annual_emissions_kg) :
    (clusterNumsOf rows).transport_ratio =
        mean (rows.map (·.transport_emissions_kg)) /
          mean (rows.map (·.total_annual_emissions_kg)) ∧
    (clusterNumsOf rows).food_ratio =
        mean (rows.map (·.food_emissions_kg)) /
          mean (rows.map (·.total_annual_emissions_kg)) ∧
    (clusterNumsOf rows).energy_ratio =
        mean (rows.map (·.energy_emissions_kg)) /
          mean (rows.map (·.total_annual_emissions_kg)) ∧
    (clusterNumsOf rows).flight_ratio =
        mean (rows.map (·.flight_emissions_kg)) /
          mean (rows.map (·.total_annual_emissions_kg)) ∧
    (clusterNumsOf rows).transport_ratio + (clusterNumsOf rows).food_ratio +
        (clusterNumsOf rows).energy_ratio + (clusterNumsOf rows).flight_ratio ≤ 1 := by
  refine ⟨rfl, rfl, rfl, rfl, ?_⟩
  have hn : (0:ℚ) < (rows.length : ℚ) := by
    have hlen : rows.length ≠ 0 := fun h => hne (List.length_eq_zero.mp h)
    exact_mod_cast Nat.pos_of_ne_zero hlen
  have hsum : (rows.map (·.transport_emissions_kg)).sum + (rows.map (·.food_emissions_kg)).sum +
      (rows.map (·.energy_emissions_kg)).sum + (rows.map (·.flight_emissions_kg)).sum ≤
      (rows.map (·.total_annual_emissions_kg)).sum := by
    have h1 : (rows.map (fun u => u.transport_emissions_kg + u.food_emissions_kg +
        u.energy_emissions_kg + u.flight_emissions_kg)).sum ≤
        (rows.map (·.total_annual_emissions_kg)).sum := List.sum_le_sum hwf
    rw [sum_map_parts] at h1
    exact h1
  simp only [mean, List.length_map] at hpos
  simp only [clusterNumsOf, mean, List.length_map]
  rw [div_add_div_same, div_add_div_same, div_add_div_same, div_le_one hpos,
    div_add_div_same, div_add_div_same, div_add_div_same]
  exact (div_le_div_iff_of_pos_right hn).mpr hsum

theorem C2_ratio_of_means_witness :
    (clusterNumsOf [emissionsOf b0]).transport_ratio +
      (clusterNumsOf [emissionsOf b0]).food_ratio +
      (clusterNumsOf [emissionsOf b0]).energy_ratio +
      (clusterNumsOf [emissionsOf b0]).flight_ratio ≤ 1 :=
  (C2_ratio_of_means [emissionsOf b0] (by simp)
    (by norm_num [mean, emissionsOf, b0])
    (by intro u hu
        simp only [List.mem_singleton] at hu
        subst hu
        simp [emissionsOf])).2.2.2.2

/-- C3: whenever the archetype contains "Transportation" or annual
transport emissions exceed 2000 kg, and daily miles exceed 30, the rule
engine's output contains a "Reduce Daily Driving" recommendation with
savings (miles − 25) × 0.411 × 7 and priority "high". -/
theorem C3_transport_rule (d : List (String × ℚ)) (archetype : String)
    (hcond : containsSub archetype "Transportation" = true ∨
      dictGet d "transport_emissions_kg" > 2000)
    (hmiles : dictGet d "daily_miles_driven" > 30) :
    ∃ r ∈ generate_rule_based_recommendations d archetype,
      r.title = "Reduce Daily Driving" ∧
      r.estimated_savings_kg = (dictGet d "daily_miles_driven" - 25) * (411/1000) * 7 ∧
      r.priority = "high" := by
  have hb : transportBlock d archetype =
      [{ title := "Reduce Daily Driving"
       , description :=
           "Reduce driving by " ++ fmt1 (dictGet d "daily_miles_driven" - 25) ++ " miles/week"
       , estimated_savings_kg := (dictGet d "daily_miles_driven" - 25) * (411/1000) * 7
       , category := "transportation"
       , priority := "high" }] := by
    simp only [transportBlock]
    split_ifs
    rfl
  have hmem : (⟨"Reduce Daily Driving",
      "Reduce driving by " ++ fmt1 (dictGet d "daily_miles_driven" - 25) ++ " miles/week",
      (dictGet d "daily_miles_driven" - 25) * (411/1000) * 7,
      "transportation", "high"⟩ : Recommendation) ∈
      generate_rule_based_recommendations d archetype := by
    simp only [generate_rule_based_recommendations, hb, List.cons_append]
    rw [if_neg (List.cons_ne_nil _ _)]
    exact List.mem_cons_self _ _
  exact ⟨_, hmem, rfl, rfl, rfl⟩

theorem C3_transport_rule_witness :
    ((50:ℚ) - 25) * (411/1000) * 7 = 71925/1000 ∧
    ∃ r ∈ generate_rule_based_recommendations
        [("daily_miles_driven", (50:ℚ))] "High Transportation",
      r.title = "Reduce Daily Driving" ∧
      r.estimated_savings_kg =
        (dictGet [("daily_miles_driven", (50:ℚ))] "daily_miles_driven" - 25) * (411/1000) * 7 ∧
      r.priority = "high" :=
  ⟨by norm_num,
   C3_transport_rule [("daily_miles_driven", (50:ℚ))] "High Transportation"
     (Or.inl (by decide)) (by decide)⟩

/-- C10: every recommendation the rule engine returns carries a
non-negative estimated saving: the three guarded formulas are positive
under their guards and every other rule sets the saving to 0. -/
theorem C10_savings_nonneg (d : List (String × ℚ)) (archetype : String)
    (r : Recommendation) (hr : r ∈ generate_rule_based_recommendations d archetype) :
    0 ≤ r.estimated_savings_kg := by
  simp only [generate_rule_based_recommendations] at hr
  split_ifs at hr with h
  · simp only [List.mem_singleton] at hr
    subst hr
    norm_num [track_rec]
  · simp only [List.mem_append] at hr
    rcases hr with (((h1 | h2) | h3) | h4)
    · exact transportBlock_nonneg d archetype r h1
    · exact foodBlock_nonneg d archetype r h2
    · exact energyBlock_nonneg d archetype r h3
    · exact lowBlock_nonneg archetype r h4

theorem C10_savings_nonneg_witness :
    track_rec ∈ generate_rule_based_recommendations [] "x" ∧
    0 ≤ track_rec.estimated_savings_kg :=
  ⟨by decide, C10_savings_nonneg [] "x" track_rec (by decide)⟩

/-- C8: for an empty activity history (no record in the trailing 30-day
window) the extracted feature vector is all zeros, and for the empty log
the returned recommendation list is non-empty and contains the zero-
savings "Start Logging Activities" entry. -/
theorem C8_empty_history (model : Option KModel) (apiKey : Option String)
    (llm : Option (String → String)) (now : ℚ) (acts : List Activity)
    (hwin : recentOf now acts = []) :
    extractFV now acts = [0, 0, 0, 0, 0, 0, 0, 0] ∧
    (get_recommendations model apiKey llm now []).recommendations ≠ [] ∧
    ∃ r ∈ (get_recommendations model apiKey llm now []).recommendations,
      r.title = "Start Logging Activities" ∧ r.estimated_savings_kg = 0 := by
  refine ⟨?_, ?_, ?_⟩
  · unfold extractFV emissionDataOf
    rw [hwin]
    have hagg : user_emission_data_of (aggregate ([] : List Activity)) = zero_data := by
      norm_num [user_emission_data_of, aggregate, zero_data]
    rw [hagg]
    decide
  · simp [get_recommendations]
  · refine ⟨start_logging_rec, ?_, rfl, rfl⟩
    simp [get_recommendations]

theorem C8_empty_history_witness :
    recentOf 0 [] = [] ∧
    (extractFV 0 [] = [0, 0, 0, 0, 0, 0, 0, 0] ∧
     (get_recommendations none none none 0 []).recommendations ≠ [] ∧
     ∃ r ∈ (get_recommendations none none none 0 []).recommendations,
       r.title = "Start Logging Activities" ∧ r.estimated_savings_kg = 0) :=
  ⟨rfl, C8_empty_history none none none 0 [] rfl⟩

/-- C6 counterexample: with the text collaborator unavailable, the
returned Recommendation's description is the rule's title joined to the
original description with ": " — not the original description verbatim. -/
theorem C6_counterexample :
    (get_recommendations none none none 0 [act_nodate]).recommendations =
      [{ track_rec with description :=
          "Track Your Progress: Continue logging activities to get personalized recommendations" }] ∧
    "Track Your Progress: Continue logging activities to get personalized recommendations" ≠
      track_rec.description := by
  have hdata : emissionDataOf 0 [act_nodate] = zero_data := by
    norm_num [emissionDataOf, recentOf, List.filter, act_nodate, aggregate,
      user_emission_data_of, zero_data]
  have harch : archetypeOfRequest none 0 [act_nodate] = "Unknown" := rfl
  have hrules : generate_rule_based_recommendations zero_data "Unknown" = [track_rec] := by
    decide
  have hpipe : (get_recommendations none none none 0 [act_nodate]).recommendations =
      (generate_rule_based_recommendations (emissionDataOf 0 [act_nodate])
          (archetypeOfRequest none 0 [act_nodate])).map
        (fun r => { r with description :=
          generate_recommendation_text none none (r.title ++ ": " ++ r.description) }) := by
    unfold get_recommendations
    rw [if_neg (by simp : ¬([act_nodate] = []))]
  refine ⟨?_, by decide⟩
  rw [hpipe, hdata, harch, hrules]
  decide

/-- C6 (amended): when the text-generation collaborator is unavailable or
fails, the enhancement function returns its input verbatim — but the
router passes "title: description" as that input, so each returned
Recommendation's description equals the rule's title and original
description joined by ": ", not the original description alone. -/
theorem C6_fallback_joins_title (apiKey : Option String)
    (llm : Option (String → String)) (hfail : apiKey = none ∨ llm = none)
    (model : Option KModel) (now : ℚ) (acts : List Activity) (hne : acts ≠ []) :
    (∀ s, generate_recommendation_text apiKey llm s = s) ∧
    (get_recommendations model apiKey llm now acts).recommendations =
      (generate_rule_based_recommendations (emissionDataOf now acts)
          (archetypeOfRequest model now acts)).map
        (fun r => { r with description := r.title ++ ": " ++ r.description }) := by
  have hgen : ∀ s, generate_recommendation_text apiKey llm s = s := by
    rcases hfail with h | h
    · subst h
      intro s
      rfl
    · subst h
      intro s
      cases apiKey <;> rfl
  refine ⟨hgen, ?_⟩
  unfold get_recommendations
  rw [if_neg hne]
  rcases hfail with h | h
  · subst h
    rfl
  · subst h
    cases apiKey <;> rfl

theorem C6_fallback_joins_title_witness :
    (get_recommendations none none none 0 [act_nodate]).recommendations =
      (generate_rule_based_recommendations (emissionDataOf 0 [act_nodate])
          (archetypeOfRequest none 0 [act_nodate])).map
        (fun r => { r with description := r.title ++ ": " ++ r.description }) :=
  (C6_fallback_joins_title none none (Or.inl rfl) none 0 [act_nodate] (by simp)).2

/-- C7 counterexample: the inference boundary performs no validation — a
wrong-arity (empty) feature dictionary is silently coerced to the
all-zero vector and classified successfully, and a negative value is
passed through and classified successfully, instead of being rejected. -/
theorem C7_counterexample :
    featureVectorOf [] = [0, 0, 0, 0, 0, 0, 0, 0] ∧
    classify_user_archetype (some test_model) [] =
      some { cluster_id := 0, archetype := "Test Cluster", cluster_stats := [] } ∧
    classify_user_archetype (some test_model) [("daily_miles_driven", -5)] =
      some { cluster_id := 0, archetype := "Test Cluster", cluster_stats := [] } :=
  ⟨rfl, rfl, rfl⟩

/-- C7 (amended): no `InvalidFeatureVector` failure exists — every key
missing from the feature dictionary is silently read as 0.0, and with a
model present classification always returns a result, for every feature
dictionary (including wrong arity or negative values). -/
theorem C7_no_validation (m : KModel) (d : List (String × ℚ)) (k : String)
    (hk : d.lookup k = none) :
    dictGet d k = 0 ∧ ∃ r, classify_user_archetype (some m) d = some r :=
  ⟨by simp [dictGet, hk], ⟨_, rfl⟩⟩

theorem C7_no_validation_witness :
    dictGet [] "daily_miles_driven" = 0 ∧
    ∃ r, classify_user_archetype (some test_model) [] = some r :=
  C7_no_validation test_model [] "daily_miles_driven" rfl

end EcoTrack
